import Mathlib

/-
Verification of the polymorph-rs ownership-polymorphic container family
(src/ref_or_owned.rs and src/ref_or_owned_macros.rs).

Shallow embedding conventions:
- A Rust reference (immutable or mutable) is modelled by the value it points
  to; a mutable reference additionally gets a get/set lens, since writing
  through it updates the referent.
- Rust Box is modelled by the structure Box below (a single-owner heap
  indirection holding its payload).
- Trait capabilities of the payload type T (Clone, PartialEq, PartialOrd,
  Ord, Hash, Display, Default, DynClone) are modelled as explicit function
  arguments: cloneFn, eqT, pcmpT, cmpT, hashT, fmtT, dflt, boxCloneFn.
- Side effects of the payload clone routine (the instrumented duplication
  counter of the spec) are modelled by state passing: a stateful clone
  capability has type T -> Sigma -> T x Sigma, and the state-passing
  translation of into_owned threads that state.
- Rust Hasher state is an abstract type H; a Hash impl is a state
  transformer T -> H -> H.  Display is T -> String.
-/

namespace Polymorph

/-- Models Rust Box: a single-owner heap indirection holding one payload. -/
structure Box (T : Type) where
  boxed : T
deriving DecidableEq, Repr

/-- Deref of a Box yields the payload it owns. -/
def Box.deref {T : Type} (b : Box T) : T :=
  b.boxed

/-- Which of the two enum cases of a container is active. -/
inductive ActiveCase where
  | borrowedCase : ActiveCase
  | ownedCase : ActiveCase
deriving DecidableEq, Repr

/-- Kinds of impl blocks that the two macros in ref_or_owned_macros.rs can
generate, one constructor per distinct impl block appearing in that file. -/
inductive TraitImplKind where
  | defaultCtor : TraitImplKind
  | derefOp : TraitImplKind
  | fromOwnedValue : TraitImplKind
  | fromBoxValue : TraitImplKind
  | intoOwnedOp : TraitImplKind
  | asRefOp : TraitImplKind
  | borrowOp : TraitImplKind
  | peqOp : TraitImplKind
  | eqMarker : TraitImplKind
  | pordOp : TraitImplKind
  | ordOp : TraitImplKind
  | hashOp : TraitImplKind
  | displayOp : TraitImplKind
deriving DecidableEq, Repr

/-- The impl blocks generated by macro ref_or_owned_impls
(src/ref_or_owned_macros.rs lines 17-124), in source order: Default, Deref,
From of T, the inherent into_owned (requires Clone), AsRef, Borrow,
PartialEq, Eq, PartialOrd, Ord, Hash, Display. -/
def ref_or_owned_impls : List TraitImplKind :=
  [TraitImplKind.defaultCtor, TraitImplKind.derefOp, TraitImplKind.fromOwnedValue,
   TraitImplKind.intoOwnedOp, TraitImplKind.asRefOp, TraitImplKind.borrowOp,
   TraitImplKind.peqOp, TraitImplKind.eqMarker, TraitImplKind.pordOp,
   TraitImplKind.ordOp, TraitImplKind.hashOp, TraitImplKind.displayOp]

/-- The impl blocks generated by macro ref_or_box_impls
(src/ref_or_owned_macros.rs lines 126-216), in source order: Deref, From of
Box of T, the inherent into_owned (requires DynClone, feature trait-clone),
AsRef, Borrow, PartialEq, PartialOrd, Display.  No Default, no Eq, no Ord
and no Hash impl is generated by this macro. -/
def ref_or_box_impls : List TraitImplKind :=
  [TraitImplKind.derefOp, TraitImplKind.fromBoxValue, TraitImplKind.intoOwnedOp,
   TraitImplKind.asRefOp, TraitImplKind.borrowOp, TraitImplKind.peqOp,
   TraitImplKind.pordOp, TraitImplKind.displayOp]

/-- Enum RefOrOwned of src/ref_or_owned.rs lines 69-73: either an immutable
reference (modelled by the referenced value) or an owned inline value. -/
inductive RefOrOwned (T : Type) where
  | Borrowed : T → RefOrOwned T
  | Owned : T → RefOrOwned T
deriving DecidableEq, Repr

namespace RefOrOwned

/-- Deref impl from ref_or_owned_impls (macro lines 25-34): both cases expose
the payload. -/
def deref {T : Type} : RefOrOwned T → T
  | Borrowed borrowed_value => borrowed_value
  | Owned owned_value => owned_value

/-- From of a reference (src/ref_or_owned.rs lines 75-79): wraps into
Borrowed. -/
def from_ref {T : Type} (value : T) : RefOrOwned T :=
  Borrowed value

/-- From of an owned value (macro lines 36-40): wraps into Owned. -/
def from_value {T : Type} (value : T) : RefOrOwned T :=
  Owned value

/-- Default impl (macro lines 19-23): Owned over the payload default, the
payload Default capability being passed as dflt. -/
def default_impl {T : Type} (dflt : T) : RefOrOwned T :=
  Owned dflt

/-- Inherent into_owned (macro lines 61-66), with the payload Clone
capability passed as cloneFn: Borrowed clones, Owned moves out. -/
def into_owned {T : Type} (cloneFn : T → T) : RefOrOwned T → T
  | Borrowed borrowed_value => cloneFn borrowed_value
  | Owned owned_value => owned_value

/-- State-passing translation of into_owned for an effectful payload clone
capability cloneSt (used to count clone invocations): the Borrowed arm runs
the clone effect once, the Owned arm touches no state. -/
def into_owned_st {T σ : Type} (cloneSt : T → σ → T × σ) :
    RefOrOwned T → σ → T × σ
  | Borrowed borrowed_value, s => cloneSt borrowed_value s
  | Owned owned_value, s => (owned_value, s)

/-- AsRef impl (macro lines 69-74): forwards to deref. -/
def as_ref {T : Type} (x : RefOrOwned T) : T :=
  x.deref

/-- Borrow impl (macro lines 76-81): forwards to deref. -/
def borrow {T : Type} (x : RefOrOwned T) : T :=
  x.deref

/-- PartialEq eq (macro lines 83-88): forwards to the payload eq after
deref on both sides. -/
def eq_op {T U : Type} (eqT : T → U → Bool) (a : RefOrOwned T)
    (b : RefOrOwned U) : Bool :=
  eqT a.deref b.deref

/-- PartialEq ne (macro lines 89-92): forwards to the payload ne after
deref on both sides. -/
def ne_op {T U : Type} (neT : T → U → Bool) (a : RefOrOwned T)
    (b : RefOrOwned U) : Bool :=
  neT a.deref b.deref

/-- PartialOrd partial_cmp (macro lines 97-102): forwards after deref. -/
def pcmp_op {T U : Type} (pcmpT : T → U → Option Ordering) (a : RefOrOwned T)
    (b : RefOrOwned U) : Option Ordering :=
  pcmpT a.deref b.deref

/-- Ord cmp (macro lines 104-109): forwards after deref. -/
def cmp_op {T : Type} (cmpT : T → T → Ordering) (a b : RefOrOwned T) :
    Ordering :=
  cmpT a.deref b.deref

/-- Hash impl (macro lines 111-116): feeds the payload of deref to the
payload hash routine, for any hasher state type H. -/
def hash_op {T H : Type} (hashT : T → H → H) (x : RefOrOwned T)
    (state : H) : H :=
  hashT x.deref state

/-- Display impl (macro lines 118-122): formats the payload of deref. -/
def fmt_op {T : Type} (fmtT : T → String) (x : RefOrOwned T) : String :=
  fmtT x.deref

/-- The discriminant of the enum: which case is active. -/
def active_case {T : Type} : RefOrOwned T → ActiveCase
  | Borrowed _ => ActiveCase.borrowedCase
  | Owned _ => ActiveCase.ownedCase

end RefOrOwned

/-- Enum RefMutOrOwned of src/ref_or_owned.rs lines 120-124: either a
mutable reference (modelled by the referenced value plus a get/set lens
below) or an owned inline value. -/
inductive RefMutOrOwned (T : Type) where
  | Borrowed : T → RefMutOrOwned T
  | Owned : T → RefMutOrOwned T
deriving DecidableEq, Repr

namespace RefMutOrOwned

/-- Deref impl from ref_or_owned_impls (macro lines 25-34). -/
def deref {T : Type} : RefMutOrOwned T → T
  | Borrowed borrowed_value => borrowed_value
  | Owned owned_value => owned_value

/-- From of a mutable reference (src/ref_or_owned.rs lines 126-130): wraps
into Borrowed. -/
def from_ref_mut {T : Type} (value : T) : RefMutOrOwned T :=
  Borrowed value

/-- From of an owned value (macro lines 36-40): wraps into Owned. -/
def from_value {T : Type} (value : T) : RefMutOrOwned T :=
  Owned value

/-- Default impl (macro lines 19-23). -/
def default_impl {T : Type} (dflt : T) : RefMutOrOwned T :=
  Owned dflt

/-- Inherent into_owned (macro lines 61-66). -/
def into_owned {T : Type} (cloneFn : T → T) : RefMutOrOwned T → T
  | Borrowed borrowed_value => cloneFn borrowed_value
  | Owned owned_value => owned_value

/-- State-passing translation of into_owned, as for RefOrOwned. -/
def into_owned_st {T σ : Type} (cloneSt : T → σ → T × σ) :
    RefMutOrOwned T → σ → T × σ
  | Borrowed borrowed_value, s => cloneSt borrowed_value s
  | Owned owned_value, s => (owned_value, s)

/-- Read half of the DerefMut impl (src/ref_or_owned.rs lines 132-140): the
exclusive reference returned exposes the payload in both cases. -/
def deref_mut_get {T : Type} : RefMutOrOwned T → T
  | Borrowed borrowed_value => borrowed_value
  | Owned owned_value => owned_value

/-- Write half of the DerefMut impl (src/ref_or_owned.rs lines 132-140):
writing through the returned exclusive reference updates the referent of the
Borrowed case or the owned value of the Owned case, never the case tag. -/
def deref_mut_set {T : Type} : RefMutOrOwned T → T → RefMutOrOwned T
  | Borrowed _, w => Borrowed w
  | Owned _, w => Owned w

/-- AsRef impl (macro lines 69-74): forwards to deref. -/
def as_ref {T : Type} (x : RefMutOrOwned T) : T :=
  x.deref

/-- Borrow impl (macro lines 76-81): forwards to deref. -/
def borrow {T : Type} (x : RefMutOrOwned T) : T :=
  x.deref

/-- Read half of the AsMut impl (src/ref_or_owned.rs lines 142-147):
forwards to deref_mut. -/
def as_mut_get {T : Type} (x : RefMutOrOwned T) : T :=
  x.deref_mut_get

/-- Write half of the AsMut impl (src/ref_or_owned.rs lines 142-147):
forwards to deref_mut. -/
def as_mut_set {T : Type} (x : RefMutOrOwned T) (w : T) : RefMutOrOwned T :=
  x.deref_mut_set w

/-- Read half of the BorrowMut impl (src/ref_or_owned.rs lines 149-154):
forwards to deref_mut. -/
def borrow_mut_get {T : Type} (x : RefMutOrOwned T) : T :=
  x.deref_mut_get

/-- Write half of the BorrowMut impl (src/ref_or_owned.rs lines 149-154):
forwards to deref_mut. -/
def borrow_mut_set {T : Type} (x : RefMutOrOwned T) (w : T) : RefMutOrOwned T :=
  x.deref_mut_set w

/-- PartialEq eq (macro lines 83-88). -/
def eq_op {T U : Type} (eqT : T → U → Bool) (a : RefMutOrOwned T)
    (b : RefMutOrOwned U) : Bool :=
  eqT a.deref b.deref

/-- PartialEq ne (macro lines 89-92). -/
def ne_op {T U : Type} (neT : T → U → Bool) (a : RefMutOrOwned T)
    (b : RefMutOrOwned U) : Bool :=
  neT a.deref b.deref

/-- PartialOrd partial_cmp (macro lines 97-102). -/
def pcmp_op {T U : Type} (pcmpT : T → U → Option Ordering)
    (a : RefMutOrOwned T) (b : RefMutOrOwned U) : Option Ordering :=
  pcmpT a.deref b.deref

/-- Ord cmp (macro lines 104-109). -/
def cmp_op {T : Type} (cmpT : T → T → Ordering) (a b : RefMutOrOwned T) :
    Ordering :=
  cmpT a.deref b.deref

/-- Hash impl (macro lines 111-116). -/
def hash_op {T H : Type} (hashT : T → H → H) (x : RefMutOrOwned T)
    (state : H) : H :=
  hashT x.deref state

/-- Display impl (macro lines 118-122). -/
def fmt_op {T : Type} (fmtT : T → String) (x : RefMutOrOwned T) : String :=
  fmtT x.deref

/-- The discriminant of the enum: which case is active. -/
def active_case {T : Type} : RefMutOrOwned T → ActiveCase
  | Borrowed _ => ActiveCase.borrowedCase
  | Owned _ => ActiveCase.ownedCase

end RefMutOrOwned

/-- Enum RefOrBox of src/ref_or_owned.rs lines 194-198: either an immutable
reference or an owned Box. -/
inductive RefOrBox (T : Type) where
  | Borrowed : T → RefOrBox T
  | Owned : Box T → RefOrBox T
deriving DecidableEq, Repr

namespace RefOrBox

/-- Deref impl from ref_or_box_impls (macro lines 129-138): the Borrowed
case exposes the referent, the Owned case derefs through the Box. -/
def deref {T : Type} : RefOrBox T → T
  | Borrowed borrowed_value => borrowed_value
  | Owned owned_box => owned_box.deref

/-- From of a reference (src/ref_or_owned.rs lines 200-204): wraps into
Borrowed. -/
def from_ref {T : Type} (value : T) : RefOrBox T :=
  Borrowed value

/-- From of a Box (macro lines 140-144): wraps into Owned. -/
def from_box {T : Type} (value : Box T) : RefOrBox T :=
  Owned value

/-- Inherent into_owned (macro lines 169-174, feature trait-clone), with the
DynClone capability clone_box passed as boxCloneFn: Borrowed clones into a
fresh Box, Owned moves the Box out. -/
def into_owned {T : Type} (boxCloneFn : T → Box T) : RefOrBox T → Box T
  | Borrowed borrowed_value => boxCloneFn borrowed_value
  | Owned owned_value => owned_value

/-- State-passing translation of into_owned for an effectful clone_box
capability. -/
def into_owned_st {T σ : Type} (boxCloneSt : T → σ → Box T × σ) :
    RefOrBox T → σ → Box T × σ
  | Borrowed borrowed_value, s => boxCloneSt borrowed_value s
  | Owned owned_value, s => (owned_value, s)

/-- AsRef impl (macro lines 177-182): forwards to deref. -/
def as_ref {T : Type} (x : RefOrBox T) : T :=
  x.deref

/-- Borrow impl (macro lines 184-189): forwards to deref. -/
def borrow {T : Type} (x : RefOrBox T) : T :=
  x.deref

/-- PartialEq eq (macro lines 191-196). -/
def eq_op {T U : Type} (eqT : T → U → Bool) (a : RefOrBox T)
    (b : RefOrBox U) : Bool :=
  eqT a.deref b.deref

/-- PartialEq ne (macro lines 197-200). -/
def ne_op {T U : Type} (neT : T → U → Bool) (a : RefOrBox T)
    (b : RefOrBox U) : Bool :=
  neT a.deref b.deref

/-- PartialOrd partial_cmp (macro lines 203-208). -/
def pcmp_op {T U : Type} (pcmpT : T → U → Option Ordering) (a : RefOrBox T)
    (b : RefOrBox U) : Option Ordering :=
  pcmpT a.deref b.deref

/-- Display impl (macro lines 210-214). -/
def fmt_op {T : Type} (fmtT : T → String) (x : RefOrBox T) : String :=
  fmtT x.deref

/-- The discriminant of the enum: which case is active. -/
def active_case {T : Type} : RefOrBox T → ActiveCase
  | Borrowed _ => ActiveCase.borrowedCase
  | Owned _ => ActiveCase.ownedCase

end RefOrBox

/-- Enum RefMutOrBox of src/ref_or_owned.rs lines 244-248: either a mutable
reference or an owned Box. -/
inductive RefMutOrBox (T : Type) where
  | Borrowed : T → RefMutOrBox T
  | Owned : Box T → RefMutOrBox T
deriving DecidableEq, Repr

namespace RefMutOrBox

/-- Deref impl from ref_or_box_impls (macro lines 129-138). -/
def deref {T : Type} : RefMutOrBox T → T
  | Borrowed borrowed_value => borrowed_value
  | Owned owned_box => owned_box.deref

/-- From of a mutable reference (src/ref_or_owned.rs lines 250-254): wraps
into Borrowed. -/
def from_ref_mut {T : Type} (value : T) : RefMutOrBox T :=
  Borrowed value

/-- From of a Box (macro lines 140-144): wraps into Owned. -/
def from_box {T : Type} (value : Box T) : RefMutOrBox T :=
  Owned value

/-- Inherent into_owned (macro lines 169-174, feature trait-clone). -/
def into_owned {T : Type} (boxCloneFn : T → Box T) : RefMutOrBox T → Box T
  | Borrowed borrowed_value => boxCloneFn borrowed_value
  | Owned owned_value => owned_value

/-- State-passing translation of into_owned for an effectful clone_box
capability. -/
def into_owned_st {T σ : Type} (boxCloneSt : T → σ → Box T × σ) :
    RefMutOrBox T → σ → Box T × σ
  | Borrowed borrowed_value, s => boxCloneSt borrowed_value s
  | Owned owned_value, s => (owned_value, s)

/-- Read half of the DerefMut impl (src/ref_or_owned.rs lines 256-264): the
Borrowed case exposes the referent, the Owned case derefs mutably through
the Box. -/
def deref_mut_get {T : Type} : RefMutOrBox T → T
  | Borrowed borrowed_value => borrowed_value
  | Owned owned_box => owned_box.deref

/-- Write half of the DerefMut impl (src/ref_or_owned.rs lines 256-264):
writing updates the referent or the boxed payload, never the case tag. -/
def deref_mut_set {T : Type} : RefMutOrBox T → T → RefMutOrBox T
  | Borrowed _, w => Borrowed w
  | Owned _, w => Owned (Box.mk w)

/-- AsRef impl (macro lines 177-182): forwards to deref. -/
def as_ref {T : Type} (x : RefMutOrBox T) : T :=
  x.deref

/-- Borrow impl (macro lines 184-189): forwards to deref. -/
def borrow {T : Type} (x : RefMutOrBox T) : T :=
  x.deref

/-- Read half of the AsMut impl (src/ref_or_owned.rs lines 266-271):
forwards to deref_mut. -/
def as_mut_get {T : Type} (x : RefMutOrBox T) : T :=
  x.deref_mut_get

/-- Write half of the AsMut impl (src/ref_or_owned.rs lines 266-271):
forwards to deref_mut. -/
def as_mut_set {T : Type} (x : RefMutOrBox T) (w : T) : RefMutOrBox T :=
  x.deref_mut_set w

/-- Read half of the BorrowMut impl (src/ref_or_owned.rs lines 273-278):
forwards to deref_mut. -/
def borrow_mut_get {T : Type} (x : RefMutOrBox T) : T :=
  x.deref_mut_get

/-- Write half of the BorrowMut impl (src/ref_or_owned.rs lines 273-278):
forwards to deref_mut. -/
def borrow_mut_set {T : Type} (x : RefMutOrBox T) (w : T) : RefMutOrBox T :=
  x.deref_mut_set w

/-- PartialEq eq (macro lines 191-196). -/
def eq_op {T U : Type} (eqT : T → U → Bool) (a : RefMutOrBox T)
    (b : RefMutOrBox U) : Bool :=
  eqT a.deref b.deref

/-- PartialEq ne (macro lines 197-200). -/
def ne_op {T U : Type} (neT : T → U → Bool) (a : RefMutOrBox T)
    (b : RefMutOrBox U) : Bool :=
  neT a.deref b.deref

/-- PartialOrd partial_cmp (macro lines 203-208). -/
def pcmp_op {T U : Type} (pcmpT : T → U → Option Ordering)
    (a : RefMutOrBox T) (b : RefMutOrBox U) : Option Ordering :=
  pcmpT a.deref b.deref

/-- Display impl (macro lines 210-214). -/
def fmt_op {T : Type} (fmtT : T → String) (x : RefMutOrBox T) : String :=
  fmtT x.deref

/-- The discriminant of the enum: which case is active. -/
def active_case {T : Type} : RefMutOrBox T → ActiveCase
  | Borrowed _ => ActiveCase.borrowedCase
  | Owned _ => ActiveCase.ownedCase

end RefMutOrBox

/-- The property of being generated for the inline-owned variants (whose
impls come from macro ref_or_owned_impls) and also for the indirection-owned
variants (whose impls come from macro ref_or_box_impls): an operation is
defined for all four variant types exactly when its impl block appears in
the output of both macros. -/
def defined_for_all_four (k : TraitImplKind) : Prop :=
  k ∈ ref_or_owned_impls ∧ k ∈ ref_or_box_impls

/-- Claim C2: on the Owned case, into_owned returns the stored value itself
by move.  In the state-passing model with an arbitrary effectful clone
capability, the Owned arm of into_owned leaves the state untouched — the
payload clone routine is never invoked — and the result is exactly the
stored value, for all four variant types (the Box variants return the
stored Box). -/
theorem C2_into_owned_owned_moves (T σ : Type) (cloneSt : T → σ → T × σ)
    (boxCloneSt : T → σ → Box T × σ) (cloneFn : T → T) (boxCloneFn : T → Box T)
    (v : T) (b : Box T) (s : σ) :
    RefOrOwned.into_owned_st cloneSt (RefOrOwned.Owned v) s = (v, s) ∧
    RefOrOwned.into_owned cloneFn (RefOrOwned.Owned v) = v ∧
    RefMutOrOwned.into_owned_st cloneSt (RefMutOrOwned.Owned v) s = (v, s) ∧
    RefMutOrOwned.into_owned cloneFn (RefMutOrOwned.Owned v) = v ∧
    RefOrBox.into_owned_st boxCloneSt (RefOrBox.Owned b) s = (b, s) ∧
    RefOrBox.into_owned boxCloneFn (RefOrBox.Owned b) = b ∧
    RefMutOrBox.into_owned_st boxCloneSt (RefMutOrBox.Owned b) s = (b, s) ∧
    RefMutOrBox.into_owned boxCloneFn (RefMutOrBox.Owned b) = b :=
  ⟨rfl, rfl, rfl, rfl, rfl, rfl, rfl, rfl⟩

/-- Claim C3: on the Borrowed case, into_owned performs exactly the effect
of one invocation of the payload clone capability (respectively of the
clone_box capability for the Box variants) and returns that duplicate; with
an instrumented counter the count rises by exactly one.  Construction from a
reference, value, or box performs no duplication at all: each constructor
wraps its argument itself, and the clone capability does not even occur in
the construction paths. -/
theorem C3_into_owned_borrowed_clones_once (T σ : Type)
    (cloneSt : T → σ → T × σ) (boxCloneSt : T → σ → Box T × σ)
    (cloneFn : T → T) (boxCloneFn : T → Box T) (v : T) (b : Box T) (s : σ)
    (n : Nat) :
    RefOrOwned.into_owned_st cloneSt (RefOrOwned.Borrowed v) s = cloneSt v s ∧
    RefMutOrOwned.into_owned_st cloneSt (RefMutOrOwned.Borrowed v) s = cloneSt v s ∧
    RefOrBox.into_owned_st boxCloneSt (RefOrBox.Borrowed v) s = boxCloneSt v s ∧
    RefMutOrBox.into_owned_st boxCloneSt (RefMutOrBox.Borrowed v) s = boxCloneSt v s ∧
    RefOrOwned.into_owned_st (fun x k => (cloneFn x, k + 1))
      (RefOrOwned.Borrowed v) n = (cloneFn v, n + 1) ∧
    RefMutOrOwned.into_owned_st (fun x k => (cloneFn x, k + 1))
      (RefMutOrOwned.Borrowed v) n = (cloneFn v, n + 1) ∧
    RefOrBox.into_owned_st (fun x k => (boxCloneFn x, k + 1))
      (RefOrBox.Borrowed v) n = (boxCloneFn v, n + 1) ∧
    RefMutOrBox.into_owned_st (fun x k => (boxCloneFn x, k + 1))
      (RefMutOrBox.Borrowed v) n = (boxCloneFn v, n + 1) ∧
    RefOrOwned.into_owned cloneFn (RefOrOwned.Borrowed v) = cloneFn v ∧
    RefMutOrOwned.into_owned cloneFn (RefMutOrOwned.Borrowed v) = cloneFn v ∧
    RefOrBox.into_owned boxCloneFn (RefOrBox.Borrowed v) = boxCloneFn v ∧
    RefMutOrBox.into_owned boxCloneFn (RefMutOrBox.Borrowed v) = boxCloneFn v ∧
    RefOrOwned.from_ref v = RefOrOwned.Borrowed v ∧
    RefOrOwned.from_value v = RefOrOwned.Owned v ∧
    RefMutOrOwned.from_ref_mut v = RefMutOrOwned.Borrowed v ∧
    RefMutOrOwned.from_value v = RefMutOrOwned.Owned v ∧
    RefOrBox.from_ref v = RefOrBox.Borrowed v ∧
    RefOrBox.from_box b = RefOrBox.Owned b ∧
    RefMutOrBox.from_ref_mut v = RefMutOrBox.Borrowed v ∧
    RefMutOrBox.from_box b = RefMutOrBox.Owned b :=
  ⟨rfl, rfl, rfl, rfl, rfl, rfl, rfl, rfl, rfl, rfl,
   rfl, rfl, rfl, rfl, rfl, rfl, rfl, rfl, rfl, rfl⟩

/-- Claim C5: transparent read access yields the underlying value in both
cases for all four variant types, and for the two mutable variants the
DerefMut lens likewise exposes the underlying value in both cases; the
access functions are total (they are defined by exhaustive match on the two
cases), so no failure mode exists.  The final two conjuncts are the lens
write law: writing through the exclusive reference really updates the
underlying value. -/
theorem C5_deref_transparent_total (T : Type) (v w : T)
    (x : RefMutOrOwned T) (y : RefMutOrBox T) :
    RefOrOwned.deref (RefOrOwned.Borrowed v) = v ∧
    RefOrOwned.deref (RefOrOwned.Owned v) = v ∧
    RefMutOrOwned.deref (RefMutOrOwned.Borrowed v) = v ∧
    RefMutOrOwned.deref (RefMutOrOwned.Owned v) = v ∧
    RefOrBox.deref (RefOrBox.Borrowed v) = v ∧
    RefOrBox.deref (RefOrBox.Owned (Box.mk v)) = v ∧
    RefMutOrBox.deref (RefMutOrBox.Borrowed v) = v ∧
    RefMutOrBox.deref (RefMutOrBox.Owned (Box.mk v)) = v ∧
    RefMutOrOwned.deref_mut_get (RefMutOrOwned.Borrowed v) = v ∧
    RefMutOrOwned.deref_mut_get (RefMutOrOwned.Owned v) = v ∧
    RefMutOrBox.deref_mut_get (RefMutOrBox.Borrowed v) = v ∧
    RefMutOrBox.deref_mut_get (RefMutOrBox.Owned (Box.mk v)) = v ∧
    (x.deref_mut_set w).deref_mut_get = w ∧
    (y.deref_mut_set w).deref_mut_get = w :=
  ⟨rfl, rfl, rfl, rfl, rfl, rfl, rfl, rfl, rfl, rfl, rfl, rfl,
   by cases x <;> rfl, by cases y <;> rfl⟩

/-- Claim C6: construction from a raw reference produces the Borrowed case
holding exactly that reference, and construction from a raw owned value or
an existing Box produces the Owned case holding exactly it, for all four
variant types; each constructor wraps its argument without copying. -/
theorem C6_construction_cases (T : Type) (r v : T) (b : Box T) :
    RefOrOwned.from_ref r = RefOrOwned.Borrowed r ∧
    RefMutOrOwned.from_ref_mut r = RefMutOrOwned.Borrowed r ∧
    RefOrBox.from_ref r = RefOrBox.Borrowed r ∧
    RefMutOrBox.from_ref_mut r = RefMutOrBox.Borrowed r ∧
    RefOrOwned.from_value v = RefOrOwned.Owned v ∧
    RefMutOrOwned.from_value v = RefMutOrOwned.Owned v ∧
    RefOrBox.from_box b = RefOrBox.Owned b ∧
    RefMutOrBox.from_box b = RefMutOrBox.Owned b :=
  ⟨rfl, rfl, rfl, rfl, rfl, rfl, rfl, rfl⟩

/-- Claim C7: default construction is generated for the two inline-owned
variants only (the defaultCtor impl appears in the output of macro
ref_or_owned_impls and not in that of ref_or_box_impls), it requires the
payload Default capability dflt, and it produces the Owned case holding the
payload default value. -/
theorem C7_default_inline_only (T : Type) (dflt : T) :
    RefOrOwned.default_impl dflt = RefOrOwned.Owned dflt ∧
    RefMutOrOwned.default_impl dflt = RefMutOrOwned.Owned dflt ∧
    TraitImplKind.defaultCtor ∈ ref_or_owned_impls ∧
    TraitImplKind.defaultCtor ∉ ref_or_box_impls :=
  ⟨rfl, rfl, by decide, by decide⟩

/-- Claim C10: every read-access entry point agrees with deref and every
write-access entry point agrees with deref_mut: as_ref and borrow return
exactly the reference deref returns for all four variant types, and as_mut
and borrow_mut coincide with the deref_mut lens (both its read half and its
write half) for the two mutable variants. -/
theorem C10_access_entry_points_agree (T : Type) (x1 : RefOrOwned T)
    (x2 : RefMutOrOwned T) (x3 : RefOrBox T) (x4 : RefMutOrBox T) (w : T) :
    x1.as_ref = x1.deref ∧ x1.borrow = x1.deref ∧
    x2.as_ref = x2.deref ∧ x2.borrow = x2.deref ∧
    x3.as_ref = x3.deref ∧ x3.borrow = x3.deref ∧
    x4.as_ref = x4.deref ∧ x4.borrow = x4.deref ∧
    x2.as_mut_get = x2.deref_mut_get ∧
    x2.as_mut_set w = x2.deref_mut_set w ∧
    x2.borrow_mut_get = x2.deref_mut_get ∧
    x2.borrow_mut_set w = x2.deref_mut_set w ∧
    x4.as_mut_get = x4.deref_mut_get ∧
    x4.as_mut_set w = x4.deref_mut_set w ∧
    x4.borrow_mut_get = x4.deref_mut_get ∧
    x4.borrow_mut_set w = x4.deref_mut_set w :=
  ⟨rfl, rfl, rfl, rfl, rfl, rfl, rfl, rfl,
   rfl, rfl, rfl, rfl, rfl, rfl, rfl, rfl⟩

/-- Claim C9: exactly one of the two cases is active for every container
(the active_case discriminant is borrowedCase exactly when it is not
ownedCase), and no operation on an existing container changes the active
case: the read-only operations (deref, as_ref, borrow, eq_op, ne_op,
pcmp_op, cmp_op, hash_op, fmt_op) take the container by value and return a
result of another type, so in this pure embedding they cannot transition it,
and the only updating operation — writing through the deref_mut, as_mut, or
borrow_mut lens of the mutable variants — preserves the active case, as
proved below.  into_owned consumes the container: its result type is the
payload type (or a Box of it), not the container type. -/
theorem C9_case_fixed (T : Type) (x1 : RefOrOwned T) (x2 : RefMutOrOwned T)
    (x3 : RefOrBox T) (x4 : RefMutOrBox T) (w : T) :
    (x1.active_case = ActiveCase.borrowedCase ↔
      ¬ x1.active_case = ActiveCase.ownedCase) ∧
    (x2.active_case = ActiveCase.borrowedCase ↔
      ¬ x2.active_case = ActiveCase.ownedCase) ∧
    (x3.active_case = ActiveCase.borrowedCase ↔
      ¬ x3.active_case = ActiveCase.ownedCase) ∧
    (x4.active_case = ActiveCase.borrowedCase ↔
      ¬ x4.active_case = ActiveCase.ownedCase) ∧
    (x2.deref_mut_set w).active_case = x2.active_case ∧
    (x2.as_mut_set w).active_case = x2.active_case ∧
    (x2.borrow_mut_set w).active_case = x2.active_case ∧
    (x4.deref_mut_set w).active_case = x4.active_case ∧
    (x4.as_mut_set w).active_case = x4.active_case ∧
    (x4.borrow_mut_set w).active_case = x4.active_case := by
  refine ⟨?_, ?_, ?_, ?_, ?_, ?_, ?_, ?_, ?_, ?_⟩
  · cases x1 <;> simp [RefOrOwned.active_case]
  · cases x2 <;> simp [RefMutOrOwned.active_case]
  · cases x3 <;> simp [RefOrBox.active_case]
  · cases x4 <;> simp [RefMutOrBox.active_case]
  · cases x2 <;> rfl
  · cases x2 <;> rfl
  · cases x2 <;> rfl
  · cases x4 <;> rfl
  · cases x4 <;> rfl
  · cases x4 <;> rfl

/-- Claim C1 counterexample: the claim asserts that hashing yields identical
results on the Borrowed and Owned cases for any of the four variant types,
but the macro ref_or_box_impls, which generates every trait impl of the two
indirection-owned variants RefOrBox and RefMutOrBox, generates no Hash impl
at all, so hashing is not available on those two variant types and the claim
cannot hold of them as stated. -/
theorem C1_counterexample : TraitImplKind.hashOp ∉ ref_or_box_impls := by
  decide

/-- Claim C1 as amended: for any payload value v, a container holding the
Borrowed case over v and a container holding the Owned case over (a Box of)
the equal value v yield identical results from transparent read access,
equality comparison (eq and ne, with the transparent container in either
argument position), ordering comparison (partial_cmp for all four variants
and cmp for the inline variants, either position), and display, for all four
variant types, and from hashing for the two inline-owned variants — the only
variants on which a Hash impl is generated; the active case is not
observable through any of these operations. -/
theorem C1_case_transparency (T H : Type) (v : T)
    (eqT neT : T → T → Bool) (pcmpT : T → T → Option Ordering)
    (cmpT : T → T → Ordering) (hashT : T → H → H) (st : H)
    (fmtT : T → String) (c1 : RefOrOwned T) (c2 : RefMutOrOwned T)
    (c3 : RefOrBox T) (c4 : RefMutOrBox T) :
    RefOrOwned.deref (RefOrOwned.Borrowed v) =
      RefOrOwned.deref (RefOrOwned.Owned v) ∧
    RefOrOwned.eq_op eqT (RefOrOwned.Borrowed v) c1 =
      RefOrOwned.eq_op eqT (RefOrOwned.Owned v) c1 ∧
    RefOrOwned.eq_op eqT c1 (RefOrOwned.Borrowed v) =
      RefOrOwned.eq_op eqT c1 (RefOrOwned.Owned v) ∧
    RefOrOwned.ne_op neT (RefOrOwned.Borrowed v) c1 =
      RefOrOwned.ne_op neT (RefOrOwned.Owned v) c1 ∧
    RefOrOwned.pcmp_op pcmpT (RefOrOwned.Borrowed v) c1 =
      RefOrOwned.pcmp_op pcmpT (RefOrOwned.Owned v) c1 ∧
    RefOrOwned.pcmp_op pcmpT c1 (RefOrOwned.Borrowed v) =
      RefOrOwned.pcmp_op pcmpT c1 (RefOrOwned.Owned v) ∧
    RefOrOwned.cmp_op cmpT (RefOrOwned.Borrowed v) c1 =
      RefOrOwned.cmp_op cmpT (RefOrOwned.Owned v) c1 ∧
    RefOrOwned.cmp_op cmpT c1 (RefOrOwned.Borrowed v) =
      RefOrOwned.cmp_op cmpT c1 (RefOrOwned.Owned v) ∧
    RefOrOwned.hash_op hashT (RefOrOwned.Borrowed v) st =
      RefOrOwned.hash_op hashT (RefOrOwned.Owned v) st ∧
    RefOrOwned.fmt_op fmtT (RefOrOwned.Borrowed v) =
      RefOrOwned.fmt_op fmtT (RefOrOwned.Owned v) ∧
    RefMutOrOwned.deref (RefMutOrOwned.Borrowed v) =
      RefMutOrOwned.deref (RefMutOrOwned.Owned v) ∧
    RefMutOrOwned.eq_op eqT (RefMutOrOwned.Borrowed v) c2 =
      RefMutOrOwned.eq_op eqT (RefMutOrOwned.Owned v) c2 ∧
    RefMutOrOwned.eq_op eqT c2 (RefMutOrOwned.Borrowed v) =
      RefMutOrOwned.eq_op eqT c2 (RefMutOrOwned.Owned v) ∧
    RefMutOrOwned.ne_op neT (RefMutOrOwned.Borrowed v) c2 =
      RefMutOrOwned.ne_op neT (RefMutOrOwned.Owned v) c2 ∧
    RefMutOrOwned.pcmp_op pcmpT (RefMutOrOwned.Borrowed v) c2 =
      RefMutOrOwned.pcmp_op pcmpT (RefMutOrOwned.Owned v) c2 ∧
    RefMutOrOwned.pcmp_op pcmpT c2 (RefMutOrOwned.Borrowed v) =
      RefMutOrOwned.pcmp_op pcmpT c2 (RefMutOrOwned.Owned v) ∧
    RefMutOrOwned.cmp_op cmpT (RefMutOrOwned.Borrowed v) c2 =
      RefMutOrOwned.cmp_op cmpT (RefMutOrOwned.Owned v) c2 ∧
    RefMutOrOwned.cmp_op cmpT c2 (RefMutOrOwned.Borrowed v) =
      RefMutOrOwned.cmp_op cmpT c2 (RefMutOrOwned.Owned v) ∧
    RefMutOrOwned.hash_op hashT (RefMutOrOwned.Borrowed v) st =
      RefMutOrOwned.hash_op hashT (RefMutOrOwned.Owned v) st ∧
    RefMutOrOwned.fmt_op fmtT (RefMutOrOwned.Borrowed v) =
      RefMutOrOwned.fmt_op fmtT (RefMutOrOwned.Owned v) ∧
    RefOrBox.deref (RefOrBox.Borrowed v) =
      RefOrBox.deref (RefOrBox.Owned (Box.mk v)) ∧
    RefOrBox.eq_op eqT (RefOrBox.Borrowed v) c3 =
      RefOrBox.eq_op eqT (RefOrBox.Owned (Box.mk v)) c3 ∧
    RefOrBox.eq_op eqT c3 (RefOrBox.Borrowed v) =
      RefOrBox.eq_op eqT c3 (RefOrBox.Owned (Box.mk v)) ∧
    RefOrBox.ne_op neT (RefOrBox.Borrowed v) c3 =
      RefOrBox.ne_op neT (RefOrBox.Owned (Box.mk v)) c3 ∧
    RefOrBox.pcmp_op pcmpT (RefOrBox.Borrowed v) c3 =
      RefOrBox.pcmp_op pcmpT (RefOrBox.Owned (Box.mk v)) c3 ∧
    RefOrBox.pcmp_op pcmpT c3 (RefOrBox.Borrowed v) =
      RefOrBox.pcmp_op pcmpT c3 (RefOrBox.Owned (Box.mk v)) ∧
    RefOrBox.fmt_op fmtT (RefOrBox.Borrowed v) =
      RefOrBox.fmt_op fmtT (RefOrBox.Owned (Box.mk v)) ∧
    RefMutOrBox.deref (RefMutOrBox.Borrowed v) =
      RefMutOrBox.deref (RefMutOrBox.Owned (Box.mk v)) ∧
    RefMutOrBox.eq_op eqT (RefMutOrBox.Borrowed v) c4 =
      RefMutOrBox.eq_op eqT (RefMutOrBox.Owned (Box.mk v)) c4 ∧
    RefMutOrBox.eq_op eqT c4 (RefMutOrBox.Borrowed v) =
      RefMutOrBox.eq_op eqT c4 (RefMutOrBox.Owned (Box.mk v)) ∧
    RefMutOrBox.ne_op neT (RefMutOrBox.Borrowed v) c4 =
      RefMutOrBox.ne_op neT (RefMutOrBox.Owned (Box.mk v)) c4 ∧
    RefMutOrBox.pcmp_op pcmpT (RefMutOrBox.Borrowed v) c4 =
      RefMutOrBox.pcmp_op pcmpT (RefMutOrBox.Owned (Box.mk v)) c4 ∧
    RefMutOrBox.pcmp_op pcmpT c4 (RefMutOrBox.Borrowed v) =
      RefMutOrBox.pcmp_op pcmpT c4 (RefMutOrBox.Owned (Box.mk v)) ∧
    RefMutOrBox.fmt_op fmtT (RefMutOrBox.Borrowed v) =
      RefMutOrBox.fmt_op fmtT (RefMutOrBox.Owned (Box.mk v)) :=
  ⟨rfl, rfl, rfl, rfl, rfl, rfl, rfl, rfl, rfl, rfl,
   rfl, rfl, rfl, rfl, rfl, rfl, rfl, rfl, rfl, rfl,
   rfl, rfl, rfl, rfl, rfl, rfl, rfl,
   rfl, rfl, rfl, rfl, rfl, rfl, rfl⟩

/-- Claim C4 counterexample: the claim asserts that hashing (among equality,
ordering, and display) is defined for all four variant types, but the Hash
impl is generated only by macro ref_or_owned_impls (the inline variants) and
not by macro ref_or_box_impls (the Box variants), so hashing is not defined
for all four. -/
theorem C4_counterexample : ¬ defined_for_all_four TraitImplKind.hashOp := by
  intro h
  exact absurd h.2 (by decide)

/-- Claim C4 as amended: equality (eq and ne), ordering (partial_cmp), and
textual display are defined for all four variant types, ordering via cmp and
the Eq marker additionally for the two inline variants, and hashing for the
two inline variants only; each defined operation forwards to the
corresponding operation of the underlying value after transparent read
access (deref), independent of which case is active. -/
theorem C4_ops_defined_and_forward (T H : Type) (eqT neT : T → T → Bool)
    (pcmpT : T → T → Option Ordering) (cmpT : T → T → Ordering)
    (hashT : T → H → H) (st : H) (fmtT : T → String)
    (a1 b1 : RefOrOwned T) (a2 b2 : RefMutOrOwned T)
    (a3 b3 : RefOrBox T) (a4 b4 : RefMutOrBox T) :
    defined_for_all_four TraitImplKind.peqOp ∧
    defined_for_all_four TraitImplKind.pordOp ∧
    defined_for_all_four TraitImplKind.displayOp ∧
    (TraitImplKind.hashOp ∈ ref_or_owned_impls ∧
      TraitImplKind.hashOp ∉ ref_or_box_impls) ∧
    (TraitImplKind.eqMarker ∈ ref_or_owned_impls ∧
      TraitImplKind.eqMarker ∉ ref_or_box_impls) ∧
    (TraitImplKind.ordOp ∈ ref_or_owned_impls ∧
      TraitImplKind.ordOp ∉ ref_or_box_impls) ∧
    RefOrOwned.eq_op eqT a1 b1 = eqT a1.deref b1.deref ∧
    RefOrOwned.ne_op neT a1 b1 = neT a1.deref b1.deref ∧
    RefOrOwned.pcmp_op pcmpT a1 b1 = pcmpT a1.deref b1.deref ∧
    RefOrOwned.cmp_op cmpT a1 b1 = cmpT a1.deref b1.deref ∧
    RefOrOwned.hash_op hashT a1 st = hashT a1.deref st ∧
    RefOrOwned.fmt_op fmtT a1 = fmtT a1.deref ∧
    RefMutOrOwned.eq_op eqT a2 b2 = eqT a2.deref b2.deref ∧
    RefMutOrOwned.ne_op neT a2 b2 = neT a2.deref b2.deref ∧
    RefMutOrOwned.pcmp_op pcmpT a2 b2 = pcmpT a2.deref b2.deref ∧
    RefMutOrOwned.cmp_op cmpT a2 b2 = cmpT a2.deref b2.deref ∧
    RefMutOrOwned.hash_op hashT a2 st = hashT a2.deref st ∧
    RefMutOrOwned.fmt_op fmtT a2 = fmtT a2.deref ∧
    RefOrBox.eq_op eqT a3 b3 = eqT a3.deref b3.deref ∧
    RefOrBox.ne_op neT a3 b3 = neT a3.deref b3.deref ∧
    RefOrBox.pcmp_op pcmpT a3 b3 = pcmpT a3.deref b3.deref ∧
    RefOrBox.fmt_op fmtT a3 = fmtT a3.deref ∧
    RefMutOrBox.eq_op eqT a4 b4 = eqT a4.deref b4.deref ∧
    RefMutOrBox.ne_op neT a4 b4 = neT a4.deref b4.deref ∧
    RefMutOrBox.pcmp_op pcmpT a4 b4 = pcmpT a4.deref b4.deref ∧
    RefMutOrBox.fmt_op fmtT a4 = fmtT a4.deref :=
  ⟨by unfold defined_for_all_four ; decide,
   by unfold defined_for_all_four ; decide,
   by unfold defined_for_all_four ; decide,
   by decide, by decide, by decide,
   rfl, rfl, rfl, rfl, rfl, rfl,
   rfl, rfl, rfl, rfl, rfl, rfl,
   rfl, rfl, rfl, rfl,
   rfl, rfl, rfl, rfl⟩

/-- Claim C8: ordering and equality are consistent across any mix of cases:
if the payload ordering puts a strictly below b, then any container whose
deref is a compares strictly below any container whose deref is b (via cmp
for the inline variants and partial_cmp for all variants), and if the
payload equality accepts a and a2, then any container derefing to a compares
equal to any container derefing to a2, for all four variant types.  The
containers x, y, w, z of each variant are arbitrary, so every mix of
Borrowed and Owned cases is covered. -/
theorem C8_order_equality_consistency (T : Type) (cmpT : T → T → Ordering)
    (pcmpT : T → T → Option Ordering) (eqT : T → T → Bool) (a b a2 : T)
    (hlt : cmpT a b = Ordering.lt) (hplt : pcmpT a b = some Ordering.lt)
    (heq : eqT a a2 = true)
    (x1 y1 w1 z1 : RefOrOwned T) (hx1 : x1.deref = a) (hy1 : y1.deref = b)
    (hw1 : w1.deref = a) (hz1 : z1.deref = a2)
    (x2 y2 w2 z2 : RefMutOrOwned T) (hx2 : x2.deref = a) (hy2 : y2.deref = b)
    (hw2 : w2.deref = a) (hz2 : z2.deref = a2)
    (x3 y3 w3 z3 : RefOrBox T) (hx3 : x3.deref = a) (hy3 : y3.deref = b)
    (hw3 : w3.deref = a) (hz3 : z3.deref = a2)
    (x4 y4 w4 z4 : RefMutOrBox T) (hx4 : x4.deref = a) (hy4 : y4.deref = b)
    (hw4 : w4.deref = a) (hz4 : z4.deref = a2) :
    RefOrOwned.cmp_op cmpT x1 y1 = Ordering.lt ∧
    RefOrOwned.pcmp_op pcmpT x1 y1 = some Ordering.lt ∧
    RefOrOwned.eq_op eqT w1 z1 = true ∧
    RefMutOrOwned.cmp_op cmpT x2 y2 = Ordering.lt ∧
    RefMutOrOwned.pcmp_op pcmpT x2 y2 = some Ordering.lt ∧
    RefMutOrOwned.eq_op eqT w2 z2 = true ∧
    RefOrBox.pcmp_op pcmpT x3 y3 = some Ordering.lt ∧
    RefOrBox.eq_op eqT w3 z3 = true ∧
    RefMutOrBox.pcmp_op pcmpT x4 y4 = some Ordering.lt ∧
    RefMutOrBox.eq_op eqT w4 z4 = true := by
  refine ⟨?_, ?_, ?_, ?_, ?_, ?_, ?_, ?_, ?_, ?_⟩
  · simp [RefOrOwned.cmp_op, hx1, hy1, hlt]
  · simp [RefOrOwned.pcmp_op, hx1, hy1, hplt]
  · simp [RefOrOwned.eq_op, hw1, hz1, heq]
  · simp [RefMutOrOwned.cmp_op, hx2, hy2, hlt]
  · simp [RefMutOrOwned.pcmp_op, hx2, hy2, hplt]
  · simp [RefMutOrOwned.eq_op, hw2, hz2, heq]
  · simp [RefOrBox.pcmp_op, hx3, hy3, hplt]
  · simp [RefOrBox.eq_op, hw3, hz3, heq]
  · simp [RefMutOrBox.pcmp_op, hx4, hy4, hplt]
  · simp [RefMutOrBox.eq_op, hw4, hz4, heq]

/-- Witness for claim C8: instantiated at payload type Nat with a = 1,
b = 2, a2 = 1, the natural-number compare and boolean equality, and a
concrete mix of Borrowed and Owned containers for each variant type. -/
theorem C8_order_equality_consistency_witness :
    compare 1 2 = Ordering.lt ∧
    ((fun x y : Nat => x == y) 1 1 = true) ∧
    (RefOrOwned.cmp_op compare (RefOrOwned.Borrowed 1)
        (RefOrOwned.Owned 2) = Ordering.lt ∧
      RefOrOwned.pcmp_op (fun x y : Nat => some (compare x y))
        (RefOrOwned.Borrowed 1) (RefOrOwned.Owned 2) = some Ordering.lt ∧
      RefOrOwned.eq_op (fun x y : Nat => x == y) (RefOrOwned.Owned 1)
        (RefOrOwned.Borrowed 1) = true ∧
      RefMutOrOwned.cmp_op compare (RefMutOrOwned.Owned 1)
        (RefMutOrOwned.Borrowed 2) = Ordering.lt ∧
      RefMutOrOwned.pcmp_op (fun x y : Nat => some (compare x y))
        (RefMutOrOwned.Owned 1) (RefMutOrOwned.Borrowed 2) =
        some Ordering.lt ∧
      RefMutOrOwned.eq_op (fun x y : Nat => x == y) (RefMutOrOwned.Borrowed 1)
        (RefMutOrOwned.Owned 1) = true ∧
      RefOrBox.pcmp_op (fun x y : Nat => some (compare x y))
        (RefOrBox.Borrowed 1) (RefOrBox.Owned (Box.mk 2)) =
        some Ordering.lt ∧
      RefOrBox.eq_op (fun x y : Nat => x == y) (RefOrBox.Owned (Box.mk 1))
        (RefOrBox.Borrowed 1) = true ∧
      RefMutOrBox.pcmp_op (fun x y : Nat => some (compare x y))
        (RefMutOrBox.Owned (Box.mk 1)) (RefMutOrBox.Borrowed 2) =
        some Ordering.lt ∧
      RefMutOrBox.eq_op (fun x y : Nat => x == y) (RefMutOrBox.Borrowed 1)
        (RefMutOrBox.Owned (Box.mk 1)) = true) :=
  ⟨by decide, by decide,
   C8_order_equality_consistency Nat compare (fun x y => some (compare x y))
    (fun x y => x == y) 1 2 1 (by decide) (by decide) (by decide)
    (RefOrOwned.Borrowed 1) (RefOrOwned.Owned 2) (RefOrOwned.Owned 1)
    (RefOrOwned.Borrowed 1) rfl rfl rfl rfl
    (RefMutOrOwned.Owned 1) (RefMutOrOwned.Borrowed 2)
    (RefMutOrOwned.Borrowed 1) (RefMutOrOwned.Owned 1) rfl rfl rfl rfl
    (RefOrBox.Borrowed 1) (RefOrBox.Owned (Box.mk 2))
    (RefOrBox.Owned (Box.mk 1)) (RefOrBox.Borrowed 1) rfl rfl rfl rfl
    (RefMutOrBox.Owned (Box.mk 1)) (RefMutOrBox.Borrowed 2)
    (RefMutOrBox.Borrowed 1) (RefMutOrBox.Owned (Box.mk 1)) rfl rfl rfl rfl⟩

end Polymorph
